import Mathlib

/-!
Shallow embedding of the statistical analysis performed by the
`axion_opensearch` benchmark-analysis scripts (`analyze_performance.py`,
`enhanced_analysis.py`, `update_ui_experiments.py`), together with theorems
settling the specification claims about them.

Conventions of the embedding:
* Python float values are modelled as exact rationals (`ℚ`); float division
  by zero (which yields NaN or inf, never a number) is modelled by `Option ℚ`
  or `Option ℝ` with `none` standing for the non-numeric float results.
* pandas `Series.mean()` is the arithmetic mean; pandas `Series.std()` is the
  sample standard deviation (divisor n-1).  The standard deviation itself is
  irrational in general, so the executable definitions carry the variance
  (the square of the standard deviation) and all comparisons against the
  standard deviation are phrased in squared form; the real-valued standard
  deviation and z-score are defined on top with `Real.sqrt`, and the two
  presentations are connected by lemmas.
* DataFrames are modelled as lists of records; `groupby` over a key is
  modelled by deduplicating the list of keys and filtering.
-/

namespace AxionAnalysis

/-- Arithmetic mean of a column, as computed by pandas `Series.mean()` and
`np.mean`: the sum divided by the length (Lean convention `x / 0 = 0` stands
in for the NaN produced on an empty column, which never occurs in the
groups the scripts feed in). -/
def mean (xs : List ℚ) : ℚ := xs.sum / (xs.length : ℚ)

/-- Sample variance with divisor n-1: the square of what pandas
`Series.std()` (default `ddof=1`) computes in
`analyze_performance.py` (the `.std()` calls on the throughput and
latency columns of a group). -/
def sampleVar (xs : List ℚ) : ℚ :=
  ((xs.map (fun v => (v - mean xs) ^ 2)).sum) / ((xs.length : ℚ) - 1)

/-- The sample standard deviation itself (`Series.std()`), as a real. -/
noncomputable def sampleStd (xs : List ℚ) : ℝ := Real.sqrt ((sampleVar xs : ℚ) : ℝ)

/-- The z-score of one repetition value, exactly as `analyze_repetitions`
computes it (`analyze_performance.py` line 211):
`abs(row[m] - mean) / std if std > 0 else 0`. -/
noncomputable def zScore (xs : List ℚ) (v : ℚ) : ℝ :=
  if 0 < sampleStd xs then |(v : ℝ) - ((mean xs : ℚ) : ℝ)| / sampleStd xs else 0

/-- One row of the per-metric column view of the loaded DataFrame restricted
to one configuration: the `repetition` column together with the value of the
metric column under analysis. -/
structure RepRow where
  repetition : ℕ
  value : ℚ
deriving DecidableEq, Repr

/-- The metric column of a group (`config_data[metric]`). -/
def colValues (rows : List RepRow) : List ℚ := rows.map RepRow.value

/-- One row appended to `outliers_df` by `create_repetition_analysis`
(`analyze_performance.py` lines 364-370): configuration, repetition, metric
name, z-score and raw value.  The float z-score is carried as its exact
square `zSq` = ((value - mean) / std)^2, because the z-score itself is
irrational; the real z-score is recovered as `Real.sqrt zSq`. -/
structure OutlierEntry where
  config : String
  repetition : ℕ
  metric : String
  zSq : ℚ
  value : ℚ
deriving DecidableEq, Repr

/-- The body of the per-metric outlier loop of `create_repetition_analysis`
(`analyze_performance.py` lines 356-370): compute the group mean and sample
standard deviation of the metric; when std > 0, flag every row whose
z-score exceeds 2 and record config, repetition, metric, z-score and value;
when std = 0 nothing is flagged.  Comparisons against the irrational
standard deviation are phrased in squared form:
`std > 0  ↔  sampleVar > 0` and, given std > 0,
`|v - mean| / std > 2  ↔  (v - mean)^2 > 4 * sampleVar`. -/
def metricOutliers (cfg metric : String) (rows : List RepRow) : List OutlierEntry :=
  let xs := colValues rows
  if 0 < sampleVar xs then
    (rows.filter (fun r => decide (4 * sampleVar xs < (r.value - mean xs) ^ 2))).map
      (fun r =>
        { config := cfg, repetition := r.repetition, metric := metric
          zSq := (r.value - mean xs) ^ 2 / sampleVar xs, value := r.value })
  else []

/-- The per-configuration gate of the same loop (`analyze_performance.py`
lines 353-354): groups with fewer than 2 repetitions are skipped
(`if len(config_data) < 2: continue`), so they contribute no outlier row. -/
def configMetricOutliers (cfg metric : String) (rows : List RepRow) : List OutlierEntry :=
  if rows.length < 2 then [] else metricOutliers cfg metric rows

/-- The flag test of `analyze_repetitions` for a single metric
(`analyze_performance.py` lines 211-215): z := |v - mean| / std when
std > 0 else 0, flagged when z > 2 — equivalently, in executable squared
form, when sampleVar > 0 and (v - mean)^2 > 4 * sampleVar. -/
def outlierTest (xs : List ℚ) (v : ℚ) : Bool :=
  decide (0 < sampleVar xs ∧ 4 * sampleVar xs < (v - mean xs) ^ 2)

/-- One row of the loaded DataFrame restricted to one configuration group as
`analyze_repetitions` sees it: repetition index, `throughput_mean` and
`latency_p99` columns. -/
structure RunRep where
  repetition : ℕ
  throughput : ℚ
  latency : ℚ
deriving DecidableEq, Repr

/-- Result of `analyze_repetitions` on one configuration group.
`notApplicable` models the explicitly printed report
`"Configuration ...: Only 1 repetition - cannot detect outliers"`
(`analyze_performance.py` lines 193-195): the exclusion is announced, no
statistics and no z-scores are computed.  `analyzed flagged` models a group
that was tested, with the repetition indices appended to the `outliers`
list. -/
inductive GroupOutlierReport where
  | notApplicable
  | analyzed (flagged : List ℕ)
deriving DecidableEq, Repr

/-- `analyze_repetitions` on one configuration group
(`analyze_performance.py` lines 192-225): groups with fewer than 2 rows are
reported as not applicable and skipped; otherwise a row is flagged when its
throughput z-score or its p99-latency z-score exceeds 2. -/
def analyzeRepetitionsGroup (rows : List RunRep) : GroupOutlierReport :=
  if rows.length < 2 then .notApplicable
  else
    let ts := rows.map RunRep.throughput
    let ls := rows.map RunRep.latency
    .analyzed ((rows.filter
      (fun r => outlierTest ts r.throughput || outlierTest ls r.latency)).map
        RunRep.repetition)

/-- One row of the `rep_metrics` raw/descriptive table of
`create_repetition_analysis` (`analyze_performance.py` lines 329-332): the
selected columns of the row plus the placeholder `duration = 3600`. -/
structure RepMetricRow where
  repetition : ℕ
  throughput : ℚ
  latency : ℚ
  duration : ℕ
deriving DecidableEq, Repr

/-- The `rep_metrics` table: a column selection over the full DataFrame —
every loaded row appears, with no per-group length gate
(`analyze_performance.py` lines 329-332). -/
def repMetrics (rows : List RunRep) : List RepMetricRow :=
  rows.map (fun r =>
    { repetition := r.repetition, throughput := r.throughput
      latency := r.latency, duration := 3600 })

/-- The unguarded coefficient-of-variation lambda used for the throughput
and latency columns of `cv_analysis`
(`analyze_performance.py` lines 336-339): `x.std() / x.mean() * 100` with
no zero-mean guard.  When the mean is 0 the float division produces
NaN or inf — modelled by `none`. -/
noncomputable def cvUnguarded (xs : List ℚ) : Option ℝ :=
  if mean xs = 0 then none
  else some (sampleStd xs / ((mean xs : ℚ) : ℝ) * 100)

/-- The guarded coefficient-of-variation lambda used for the CPU and
thread-pool columns of `cv_analysis` (`analyze_performance.py` lines
340-345): `x.std() / x.mean() * 100 if x.mean() > 0 else 0`. -/
noncomputable def cvGuarded (xs : List ℚ) : ℝ :=
  if 0 < mean xs then sampleStd xs / ((mean xs : ℚ) : ℝ) * 100 else 0

/-- One loaded benchmark run record as `analyze_aggregates` consumes it
(`analyze_performance.py` lines 152-178, restricted to the columns the
aggregation claims are about). -/
structure RunRecord where
  clients : ℕ
  nodes : ℕ
  shards : ℕ
  repetition : ℕ
  throughput : ℚ
deriving DecidableEq, Repr

/-- The groupby key of `analyze_aggregates`
(`df.groupby` over the clients, nodes and shards columns). -/
def configKey (r : RunRecord) : ℕ × ℕ × ℕ := (r.clients, r.nodes, r.shards)

/-- One output row of `analyze_aggregates` (lines 236-246): the key plus the
aggregated throughput columns (mean, variance standing for the squared std,
and count). -/
structure AggRow where
  key : ℕ × ℕ × ℕ
  throughputMean : ℚ
  throughputVar : ℚ
  count : ℕ
deriving DecidableEq, Repr

/-- The rows of the DataFrame belonging to one groupby key. -/
def groupRows (df : List RunRecord) (k : ℕ × ℕ × ℕ) : List RunRecord :=
  df.filter (fun r => decide (configKey r = k))

/-- `analyze_aggregates` (`analyze_performance.py` lines 236-246): group the
loaded records by configuration key and aggregate each group.  pandas
`groupby` produces exactly one output row per distinct key, modelled by
deduplicating the key column; the subsequent `sort_values` only permutes
these rows and is omitted. -/
def analyzeAggregates (df : List RunRecord) : List AggRow :=
  ((df.map configKey).dedup).map (fun k =>
    let g := (groupRows df k).map RunRecord.throughput
    { key := k, throughputMean := mean g, throughputVar := sampleVar g
      count := g.length })

/-- One `*_summary.json` file as `load_summary_data` sees it
(`analyze_performance.py` lines 135-178).  `parsed = false` models a file on
which `json.load` raises (malformed JSON); a `none` field models a key
missing from the JSON object, on which the `summary[...]` subscript raises
`KeyError`.  The configuration fields come from the already-parsed
filename. -/
structure SummaryFile where
  filename : String
  parsed : Bool
  throughputMean : Option ℚ
  throughputMin : Option ℚ
  throughputMax : Option ℚ
  latencyP50 : Option ℚ
  latencyP90 : Option ℚ
  latencyP99 : Option ℚ
  latencyMean : Option ℚ
  errorRate : Option ℚ
deriving DecidableEq, Repr

/-- The record built from one successfully loaded summary file
(`analyze_performance.py` lines 152-178, the summary-derived columns). -/
structure SummaryRecord where
  throughputMean : ℚ
  throughputMin : ℚ
  throughputMax : ℚ
  latencyP50 : ℚ
  latencyP90 : ℚ
  latencyP99 : ℚ
  latencyMean : ℚ
  errorRate : ℚ
deriving DecidableEq, Repr

/-- The body of the per-file `try` block: `json.load` followed by the keyed
extractions.  Any failure — malformed JSON or a missing key — lands in the
`except` branch, modelled by `none`. -/
def loadRecord (f : SummaryFile) : Option SummaryRecord :=
  if f.parsed then
    match f.throughputMean, f.throughputMin, f.throughputMax, f.latencyP50,
        f.latencyP90, f.latencyP99, f.latencyMean, f.errorRate with
    | some a, some b, some c, some d, some e, some p, some m, some er =>
        some ⟨a, b, c, d, e, p, m, er⟩
    | _, _, _, _, _, _, _, _ => none
  else none

/-- `load_summary_data` (`analyze_performance.py` lines 135-183): iterate
over the summary files; a file whose load fails is logged
(`print(f"Error loading {file_path}: {e}")`) and skipped, every other file
contributes its record.  Returns (loaded records, logged error lines). -/
def loadSummaryData : List SummaryFile → List SummaryRecord × List String
  | [] => ([], [])
  | f :: fs =>
      let rest := loadSummaryData fs
      match loadRecord f with
      | some r => (r :: rest.1, rest.2)
      | none => (rest.1, ("Error loading " ++ f.filename) :: rest.2)

/-- The unguarded read that `generate_scaling_insights` performs on a
summary file (`enhanced_analysis.py` lines 162-168): `json.load` followed by
the subscript reads of throughput.mean and latency.99_0 with no
`try` around them, so a failure is an uncaught exception (`Except.error`). -/
def loadStrict (f : SummaryFile) : Except String (ℚ × ℚ) :=
  if f.parsed then
    match f.throughputMean with
    | none => .error ("KeyError: throughput.mean in " ++ f.filename)
    | some t =>
        match f.latencyP99 with
        | none => .error ("KeyError: latency.99_0 in " ++ f.filename)
        | some l => .ok (t, l)
  else .error ("JSONDecodeError: " ++ f.filename)

/-- `generate_scaling_insights` (`enhanced_analysis.py` lines 139-173):
with fewer than 2 summary files it prints recommendations and loads nothing
(`.ok none`); otherwise it reads the first two files unguarded and averages
their throughput and p99 latency.  An exception escaping `loadStrict`
aborts the whole run (`Except.error`). -/
def generateScalingInsights (files : List SummaryFile) : Except String (Option (ℚ × ℚ)) :=
  match files with
  | f1 :: f2 :: _ => do
      let s1 ← loadStrict f1
      let s2 ← loadStrict f2
      pure (some ((s1.1 + s2.1) / 2, (s1.2 + s2.2) / 2))
  | _ => pure none

/-- One CPU telemetry sample appended to `cpu_data` by `parse_cpu_metrics`
(`analyze_performance.py` lines 41-45). -/
structure CpuSample where
  cpu_percent : ℚ
  load_1m : ℚ
  process_cpu : ℚ
deriving DecidableEq, Repr

/-- The dictionary returned by `parse_cpu_metrics`
(`analyze_performance.py` lines 51-62). -/
structure CpuMetrics where
  cpu_avg : ℚ
  cpu_peak : ℚ
  cpu_p95 : ℚ
  load_avg_1m : ℚ
  process_cpu_avg : ℚ
deriving DecidableEq, Repr

/-- Insert into a sorted list, the sorting step behind `quantile`. -/
def insertSorted (x : ℚ) : List ℚ → List ℚ
  | [] => [x]
  | y :: ys => if x ≤ y then x :: y :: ys else y :: insertSorted x ys

/-- Ascending sort of a column (insertion sort). -/
def sortAsc (xs : List ℚ) : List ℚ := xs.foldr insertSorted []

/-- Column maximum as pandas `Series.max()` on a non-empty column; 0 on the
empty column, which the parsers never pass in. -/
def colMax : List ℚ → ℚ
  | [] => 0
  | x :: xs => xs.foldl max x

/-- pandas `Series.quantile(q)` with the default linear interpolation:
sort the column, take position q * (n - 1), and interpolate linearly
between the two neighbouring order statistics. -/
def quantile (q : ℚ) (xs : List ℚ) : ℚ :=
  let s := sortAsc xs
  let n := s.length
  if n = 0 then 0
  else
    let pos : ℚ := q * ((n : ℚ) - 1)
    let i : ℕ := (Int.floor pos).toNat
    let frac : ℚ := pos - (i : ℚ)
    s.getD i 0 + frac * (s.getD (min (i + 1) (n - 1)) 0 - s.getD i 0)

/-- `parse_cpu_metrics` (`analyze_performance.py` lines 49-62): with at
least one telemetry sample, reduce the samples; with no samples return the
all-zero dictionary. -/
def parseCpuMetrics (cpu_data : List CpuSample) : CpuMetrics :=
  if cpu_data.isEmpty then
    { cpu_avg := 0, cpu_peak := 0, cpu_p95 := 0, load_avg_1m := 0, process_cpu_avg := 0 }
  else
    { cpu_avg := mean (cpu_data.map CpuSample.cpu_percent)
      cpu_peak := colMax (cpu_data.map CpuSample.cpu_percent)
      cpu_p95 := quantile (95 / 100) (cpu_data.map CpuSample.cpu_percent)
      load_avg_1m := mean (cpu_data.map CpuSample.load_1m)
      process_cpu_avg := mean (cpu_data.map CpuSample.process_cpu) }

/-- One thread-pool telemetry sample appended to `queue_data` by
`parse_queue_metrics` (`analyze_performance.py` lines 90-97). -/
structure PoolSample where
  pool : String
  queue : ℚ
  active : ℚ
  rejected : ℚ
  threads : ℚ
  largest : ℚ
deriving DecidableEq, Repr

/-- The dictionary returned by `parse_queue_metrics`
(`analyze_performance.py` lines 115-128). -/
structure QueueMetrics where
  total_queue : ℚ
  total_active : ℚ
  total_rejected : ℚ
  max_queue : ℚ
  max_rejected : ℚ
  write_queue : ℚ
  search_queue : ℚ
deriving DecidableEq, Repr

/-- `parse_queue_metrics` (`analyze_performance.py` lines 101-128): with at
least one sample, aggregate across pools and nodes; with no samples return
the all-zero dictionary. -/
def parseQueueMetrics (queue_data : List PoolSample) : QueueMetrics :=
  if queue_data.isEmpty then
    { total_queue := 0, total_active := 0, total_rejected := 0, max_queue := 0
      max_rejected := 0, write_queue := 0, search_queue := 0 }
  else
    { total_queue := (queue_data.map PoolSample.queue).sum
      total_active := (queue_data.map PoolSample.active).sum
      total_rejected := (queue_data.map PoolSample.rejected).sum
      max_queue := colMax (queue_data.map PoolSample.queue)
      max_rejected := colMax (queue_data.map PoolSample.rejected)
      write_queue := ((queue_data.filter (fun p => p.pool == "write")).map PoolSample.queue).sum
      search_queue := ((queue_data.filter (fun p => p.pool == "search")).map PoolSample.queue).sum }

theorem sum_map_sub_const (l : List ℚ) (c : ℚ) :
    (l.map (fun x => x - c)).sum = l.sum - l.length * c := by
  induction l with
  | nil => simp
  | cons a t ih => simp [ih]; ring

theorem sum_sq_nonneg (l : List ℚ) (c : ℚ) :
    0 ≤ (l.map (fun x => (x - c) ^ 2)).sum := by
  apply List.sum_nonneg
  intro x hx
  obtain ⟨y, _, rfl⟩ := List.mem_map.mp hx
  positivity

theorem sq_sum_le_length_mul_sum_sq (l : List ℚ) :
    l.sum ^ 2 ≤ (l.length : ℚ) * (l.map (fun x => x ^ 2)).sum := by
  induction l with
  | nil => simp
  | cons a t ih =>
    rcases t with _ | ⟨b, t2⟩
    · norm_num
    · have hq : (0 : ℚ) ≤ ((b :: t2).map (fun x => x ^ 2)).sum := by
        apply List.sum_nonneg
        intro x hx
        obtain ⟨y, _, rfl⟩ := List.mem_map.mp hx
        positivity
      have hn : (1 : ℚ) ≤ ((b :: t2).length : ℚ) := by
        exact_mod_cast Nat.succ_le_succ (Nat.zero_le t2.length)
      have hstep : (a + (b :: t2).sum) ^ 2 ≤
          (((b :: t2).length : ℚ) + 1) *
            (a ^ 2 + ((b :: t2).map (fun x => x ^ 2)).sum) := by
        nlinarith [sq_nonneg (((b :: t2).length : ℚ) * a - (b :: t2).sum),
          mul_nonneg (le_trans zero_le_one hn)
            (by linarith :
              (0 : ℚ) ≤ ((b :: t2).length : ℚ) * ((b :: t2).map (fun x => x ^ 2)).sum -
                (b :: t2).sum ^ 2)]
      calc ((a :: b :: t2).sum) ^ 2 = (a + (b :: t2).sum) ^ 2 := by simp
        _ ≤ (((b :: t2).length : ℚ) + 1) *
              (a ^ 2 + ((b :: t2).map (fun x => x ^ 2)).sum) := hstep
        _ = ((a :: b :: t2).length : ℚ) * ((a :: b :: t2).map (fun x => x ^ 2)).sum := by
              simp only [List.length_cons, List.map_cons, List.sum_cons]
              push_cast
              ring

theorem dev_sq_bound (xs : List ℚ) (hn : 1 ≤ xs.length) {v : ℚ} (hv : v ∈ xs) :
    (xs.length : ℚ) * (v - mean xs) ^ 2 ≤
      ((xs.length : ℚ) - 1) * (xs.map (fun x => (x - mean xs) ^ 2)).sum := by
  obtain ⟨s, t, rfl⟩ := List.append_of_mem hv
  set l := s ++ v :: t with hl
  set μ := mean l with hμ
  have hlen : (0 : ℚ) < (l.length : ℚ) := by
    exact_mod_cast lt_of_lt_of_le Nat.zero_lt_one hn
  have hdevsum : (l.map (fun x => x - μ)).sum = 0 := by
    rw [sum_map_sub_const, hμ, mean]
    field_simp
  -- the deviations of the group with v removed sum to -(v - μ)
  have hsplit : (l.map (fun x => x - μ)).sum =
      ((s ++ t).map (fun x => x - μ)).sum + (v - μ) := by
    rw [hl]
    simp [List.map_append, List.sum_append]
    try ring
  have hrest : ((s ++ t).map (fun x => x - μ)).sum = -(v - μ) := by
    have := hdevsum
    rw [hsplit] at this
    linarith
  -- Cauchy-Schwarz on the deviations of the group with v removed
  have hcs := sq_sum_le_length_mul_sum_sq ((s ++ t).map (fun x => x - μ))
  rw [hrest, List.length_map, List.map_map] at hcs
  have hmapcomp : ((s ++ t).map ((fun x => x ^ 2) ∘ fun x => x - μ)) =
      ((s ++ t).map (fun x => (x - μ) ^ 2)) := by
    simp [Function.comp_def]
  rw [hmapcomp] at hcs
  -- split the full sum of squared deviations
  have hsq_split : (l.map (fun x => (x - μ) ^ 2)).sum =
      ((s ++ t).map (fun x => (x - μ) ^ 2)).sum + (v - μ) ^ 2 := by
    rw [hl]
    simp [List.map_append, List.sum_append]
    try ring
  have hlength2 : (l.length : ℚ) = ((s ++ t).length : ℚ) + 1 := by
    rw [hl]
    push_cast [List.length_append, List.length_cons]
    ring
  have hneg : (-(v - μ)) ^ 2 = (v - μ) ^ 2 := by ring
  rw [hneg] at hcs
  rw [hsq_split, hlength2]
  nlinarith [hcs]

theorem small_group_dev_le (xs : List ℚ) (h2 : 2 ≤ xs.length) (h5 : xs.length ≤ 5)
    {v : ℚ} (hv : v ∈ xs) : (v - mean xs) ^ 2 ≤ 4 * sampleVar xs := by
  have hn1 : 1 ≤ xs.length := le_trans (by norm_num) h2
  have key := dev_sq_bound xs hn1 hv
  have hS : (0 : ℚ) ≤ (xs.map (fun x => (x - mean xs) ^ 2)).sum := sum_sq_nonneg xs (mean xs)
  have hn2 : (2 : ℚ) ≤ (xs.length : ℚ) := by exact_mod_cast h2
  have hn5 : (xs.length : ℚ) ≤ 5 := by exact_mod_cast h5
  have hpos : (0 : ℚ) < (xs.length : ℚ) - 1 := by linarith
  rw [sampleVar, ← mul_div_assoc, le_div_iff₀ hpos]
  nlinarith [key, hS, mul_nonneg (mul_nonneg (by linarith : (0:ℚ) ≤ (xs.length : ℚ) - 2)
    (by linarith : (0:ℚ) ≤ 5 - (xs.length : ℚ))) hS,
    mul_le_mul_of_nonneg_left key (by linarith : (0:ℚ) ≤ (xs.length : ℚ) - 1)]

theorem sampleStd_pos_iff (xs : List ℚ) : 0 < sampleStd xs ↔ 0 < sampleVar xs := by
  rw [sampleStd, Real.sqrt_pos]
  exact_mod_cast Iff.rfl

theorem zScore_of_pos {xs : List ℚ} (h : 0 < sampleVar xs) (v : ℚ) :
    zScore xs v = |(v : ℝ) - ((mean xs : ℚ) : ℝ)| / sampleStd xs := by
  rw [zScore, if_pos ((sampleStd_pos_iff xs).mpr h)]

theorem zScore_of_nonpos {xs : List ℚ} (h : ¬ 0 < sampleVar xs) (v : ℚ) :
    zScore xs v = 0 := by
  rw [zScore, if_neg (fun hc => h ((sampleStd_pos_iff xs).mp hc))]

theorem zScore_nonneg (xs : List ℚ) (v : ℚ) : 0 ≤ zScore xs v := by
  rw [zScore]
  split
  · exact div_nonneg (abs_nonneg _) (le_of_lt (by assumption))
  · exact le_refl 0

/-- Given a positive sample variance, the float comparison z > 2 of the
source is equivalent to the executable squared comparison used in the
embedding. -/
theorem zScore_gt_two_iff {xs : List ℚ} (h : 0 < sampleVar xs) (v : ℚ) :
    2 < zScore xs v ↔ 4 * sampleVar xs < (v - mean xs) ^ 2 := by
  have hσ : 0 < sampleStd xs := (sampleStd_pos_iff xs).mpr h
  have hσ2 : sampleStd xs ^ 2 = ((sampleVar xs : ℚ) : ℝ) :=
    Real.sq_sqrt (by exact_mod_cast h.le)
  have hcast : (4 * sampleVar xs < (v - mean xs) ^ 2) ↔
      ((4 : ℝ) * ((sampleVar xs : ℚ) : ℝ) < ((v : ℝ) - ((mean xs : ℚ) : ℝ)) ^ 2) := by
    rw [show ((4 : ℝ) * ((sampleVar xs : ℚ) : ℝ) = (((4 * sampleVar xs : ℚ)) : ℝ)) from by
      push_cast; ring]
    rw [show (((v : ℝ) - ((mean xs : ℚ) : ℝ)) ^ 2 = (((v - mean xs) ^ 2 : ℚ) : ℝ)) from by
      push_cast; ring]
    exact_mod_cast Iff.rfl
  rw [zScore_of_pos h, lt_div_iff₀ hσ, hcast]
  constructor
  · intro hlt
    nlinarith [sq_abs ((v : ℝ) - ((mean xs : ℚ) : ℝ)),
      abs_nonneg ((v : ℝ) - ((mean xs : ℚ) : ℝ)), hσ, hσ2]
  · intro hlt
    nlinarith [sq_abs ((v : ℝ) - ((mean xs : ℚ) : ℝ)),
      abs_nonneg ((v : ℝ) - ((mean xs : ℚ) : ℝ)), hσ, hσ2]

/-- Companion to `zScore_gt_two_iff` for the strict comparison from below. -/
theorem zScore_lt_two_iff {xs : List ℚ} (h : 0 < sampleVar xs) (v : ℚ) :
    zScore xs v < 2 ↔ (v - mean xs) ^ 2 < 4 * sampleVar xs := by
  have hσ : 0 < sampleStd xs := (sampleStd_pos_iff xs).mpr h
  have hσ2 : sampleStd xs ^ 2 = ((sampleVar xs : ℚ) : ℝ) :=
    Real.sq_sqrt (by exact_mod_cast h.le)
  have hcast : ((v - mean xs) ^ 2 < 4 * sampleVar xs) ↔
      (((v : ℝ) - ((mean xs : ℚ) : ℝ)) ^ 2 < (4 : ℝ) * ((sampleVar xs : ℚ) : ℝ)) := by
    rw [show ((4 : ℝ) * ((sampleVar xs : ℚ) : ℝ) = (((4 * sampleVar xs : ℚ)) : ℝ)) from by
      push_cast; ring]
    rw [show (((v : ℝ) - ((mean xs : ℚ) : ℝ)) ^ 2 = (((v - mean xs) ^ 2 : ℚ) : ℝ)) from by
      push_cast; ring]
    exact_mod_cast Iff.rfl
  rw [zScore_of_pos h, div_lt_iff₀ hσ, hcast]
  constructor
  · intro hlt
    nlinarith [sq_abs ((v : ℝ) - ((mean xs : ℚ) : ℝ)),
      abs_nonneg ((v : ℝ) - ((mean xs : ℚ) : ℝ)), hσ, hσ2]
  · intro hlt
    nlinarith [sq_abs ((v : ℝ) - ((mean xs : ℚ) : ℝ)),
      abs_nonneg ((v : ℝ) - ((mean xs : ℚ) : ℝ)), hσ, hσ2]

/-- The recorded squared z-score of an entry determines the real z-score. -/
theorem sqrt_zSq_eq_zScore {xs : List ℚ} (h : 0 < sampleVar xs) (v : ℚ) :
    Real.sqrt ((((v - mean xs) ^ 2 / sampleVar xs : ℚ)) : ℝ) = zScore xs v := by
  have hcast : ((((v - mean xs) ^ 2 / sampleVar xs : ℚ)) : ℝ) =
      (((v : ℝ) - ((mean xs : ℚ) : ℝ)) ^ 2) / ((sampleVar xs : ℚ) : ℝ) := by
    push_cast
    ring
  rw [hcast, Real.sqrt_div (sq_nonneg _), Real.sqrt_sq_eq_abs, zScore_of_pos h, sampleStd]

/-- On groups of at most 5 repetitions the flag test of
`analyze_repetitions` never fires, whatever the data. -/
theorem outlierTest_false_of_small (xs : List ℚ) (h2 : 2 ≤ xs.length)
    (h5 : xs.length ≤ 5) {v : ℚ} (hv : v ∈ xs) : outlierTest xs v = false := by
  rw [outlierTest, decide_eq_false_iff_not]
  rintro ⟨-, hb⟩
  exact absurd hb (not_lt.mpr (small_group_dev_le xs h2 h5 hv))

/-- On groups of 2 to 5 repetitions the outlier table of
`create_repetition_analysis` is empty, whatever the data. -/
theorem configMetricOutliers_nil_of_small (cfg metric : String) (rows : List RepRow)
    (h2 : 2 ≤ rows.length) (h5 : rows.length ≤ 5) :
    configMetricOutliers cfg metric rows = [] := by
  rw [configMetricOutliers, if_neg (by omega)]
  by_cases hv : 0 < sampleVar (colValues rows)
  · rw [metricOutliers]
    simp only [if_pos hv, List.map_eq_nil_iff]
    rw [List.filter_eq_nil_iff]
    intro r hr
    have hmem : r.value ∈ colValues rows := List.mem_map_of_mem RepRow.value hr
    have hlen2 : 2 ≤ (colValues rows).length := by
      rw [colValues, List.length_map]; exact h2
    have hlen5 : (colValues rows).length ≤ 5 := by
      rw [colValues, List.length_map]; exact h5
    simp only [decide_eq_true_eq]
    exact not_lt.mpr (small_group_dev_le (colValues rows) hlen2 hlen5 hmem)
  · rw [metricOutliers]
    simp only [if_neg hv]

/-- On groups of 2 to 5 repetitions `analyze_repetitions` flags nothing,
whatever the data. -/
theorem analyzeRepetitionsGroup_nil_of_small (runs : List RunRep)
    (h2 : 2 ≤ runs.length) (h5 : runs.length ≤ 5) :
    analyzeRepetitionsGroup runs = .analyzed [] := by
  rw [analyzeRepetitionsGroup, if_neg (by omega)]
  simp only [GroupOutlierReport.analyzed.injEq, List.map_eq_nil_iff]
  rw [List.filter_eq_nil_iff]
  intro r hr
  have ht : outlierTest (runs.map RunRep.throughput) r.throughput = false :=
    outlierTest_false_of_small _ (by rw [List.length_map]; exact h2)
      (by rw [List.length_map]; exact h5) (List.mem_map_of_mem RunRep.throughput hr)
  have hl : outlierTest (runs.map RunRep.latency) r.latency = false :=
    outlierTest_false_of_small _ (by rw [List.length_map]; exact h2)
      (by rw [List.length_map]; exact h5) (List.mem_map_of_mem RunRep.latency hr)
  simp [ht, hl]

/-- On groups of 2 to 5 repetitions no z-score can exceed 2, whatever the
data. -/
theorem zScore_le_two_of_small (xs : List ℚ) (h2 : 2 ≤ xs.length)
    (h5 : xs.length ≤ 5) {v : ℚ} (hv : v ∈ xs) : zScore xs v ≤ 2 := by
  by_cases hσ : 0 < sampleVar xs
  · exact not_lt.mp (fun hc =>
      absurd ((zScore_gt_two_iff hσ v).mp hc)
        (not_lt.mpr (small_group_dev_le xs h2 h5 hv)))
  · rw [zScore_of_nonpos hσ]
    norm_num

/-- C9: because the standard deviation is the sample standard deviation
(divisor n-1) and the threshold is 2, a per-configuration group of n
repetitions with 2 <= n <= 5 never has any flagged outlier, for every
possible input: the outlier table of `create_repetition_analysis` is empty,
`analyze_repetitions` flags nothing, and no z-score exceeds 2 (the maximum
attainable being (n-1)/sqrt n < 2). -/
theorem small_sample_no_outliers (cfg metric : String) (rows : List RepRow)
    (runs : List RunRep) (h2 : 2 ≤ rows.length) (h5 : rows.length ≤ 5)
    (g2 : 2 ≤ runs.length) (g5 : runs.length ≤ 5) :
    configMetricOutliers cfg metric rows = [] ∧
    analyzeRepetitionsGroup runs = .analyzed [] ∧
    ∀ v ∈ colValues rows, zScore (colValues rows) v ≤ 2 := by
  refine ⟨configMetricOutliers_nil_of_small cfg metric rows h2 h5,
    analyzeRepetitionsGroup_nil_of_small runs g2 g5, ?_⟩
  intro v hv
  exact zScore_le_two_of_small (colValues rows)
    (by rw [colValues, List.length_map]; exact h2)
    (by rw [colValues, List.length_map]; exact h5) hv

/-- Witness for C9 at a concrete 2-repetition group. -/
theorem small_sample_no_outliers_witness :
    2 ≤ ([⟨1, 0⟩, ⟨2, 1⟩] : List RepRow).length ∧
    ([⟨1, 0⟩, ⟨2, 1⟩] : List RepRow).length ≤ 5 ∧
    configMetricOutliers "70_16-16" "throughput_mean" [⟨1, 0⟩, ⟨2, 1⟩] = [] ∧
    analyzeRepetitionsGroup [⟨1, 0, 0⟩, ⟨2, 5, 7⟩] = .analyzed [] ∧
    zScore (colValues [⟨1, 0⟩, ⟨2, 1⟩]) 0 ≤ 2 := by
  obtain ⟨ha, hb, hc⟩ := small_sample_no_outliers "70_16-16" "throughput_mean"
    [⟨1, 0⟩, ⟨2, 1⟩] [⟨1, 0, 0⟩, ⟨2, 5, 7⟩] (by decide) (by decide) (by decide) (by decide)
  refine ⟨by decide, by decide, ha, hb, hc 0 ?_⟩
  have hcol : colValues [⟨1, 0⟩, ⟨2, 1⟩] = [0, 1] := rfl
  rw [hcol]
  simp

/-- C1: on a group with at least 2 repetitions and positive standard
deviation, a repetition value is flagged by `create_repetition_analysis` if
and only if its z-score |v - mean| / std exceeds 2, and the flagged entry
records the configuration, the repetition, the offending metric name, the
z-score (carried as its square) and the raw value. -/
theorem metric_outlier_flag_iff (cfg metric : String) (rows : List RepRow)
    (h2 : 2 ≤ rows.length) (hσ : 0 < sampleVar (colValues rows))
    (r : RepRow) (hr : r ∈ rows) :
    (∃ e ∈ configMetricOutliers cfg metric rows,
        e.config = cfg ∧ e.repetition = r.repetition ∧ e.metric = metric ∧
        e.value = r.value ∧
        Real.sqrt ((e.zSq : ℚ) : ℝ) = zScore (colValues rows) r.value) ↔
      2 < zScore (colValues rows) r.value := by
  rw [configMetricOutliers, if_neg (by omega), metricOutliers]
  simp only [if_pos hσ]
  constructor
  · rintro ⟨e, he, -, -, -, hval, -⟩
    obtain ⟨r2, hr2, rfl⟩ := List.mem_map.mp he
    have hflag := (List.mem_filter.mp hr2).2
    simp only [decide_eq_true_eq] at hflag
    have : 4 * sampleVar (colValues rows) < (r.value - mean (colValues rows)) ^ 2 := by
      simpa [← hval] using hflag
    exact (zScore_gt_two_iff hσ r.value).mpr this
  · intro hz
    have hflag := (zScore_gt_two_iff hσ r.value).mp hz
    refine ⟨_, List.mem_map_of_mem _ (List.mem_filter.mpr ⟨hr, by
      simpa only [decide_eq_true_eq] using hflag⟩), rfl, rfl, rfl, rfl, ?_⟩
    exact sqrt_zSq_eq_zScore hσ r.value

/-- Witness for C1 at a concrete 9-repetition group with one genuine
outlier (eight values 0 and one value 9, z-score 8/3 > 2). -/
theorem metric_outlier_flag_iff_witness :
    2 ≤ ([⟨1, 0⟩, ⟨2, 0⟩, ⟨3, 0⟩, ⟨4, 0⟩, ⟨5, 0⟩, ⟨6, 0⟩, ⟨7, 0⟩, ⟨8, 0⟩,
      ⟨9, 9⟩] : List RepRow).length ∧
    0 < sampleVar (colValues [⟨1, 0⟩, ⟨2, 0⟩, ⟨3, 0⟩, ⟨4, 0⟩, ⟨5, 0⟩, ⟨6, 0⟩,
      ⟨7, 0⟩, ⟨8, 0⟩, ⟨9, 9⟩]) ∧
    ((∃ e ∈ configMetricOutliers "70_16-16" "latency_p99"
        [⟨1, 0⟩, ⟨2, 0⟩, ⟨3, 0⟩, ⟨4, 0⟩, ⟨5, 0⟩, ⟨6, 0⟩, ⟨7, 0⟩, ⟨8, 0⟩, ⟨9, 9⟩],
        e.config = "70_16-16" ∧ e.repetition = 9 ∧ e.metric = "latency_p99" ∧
        e.value = 9 ∧
        Real.sqrt ((e.zSq : ℚ) : ℝ) =
          zScore (colValues [⟨1, 0⟩, ⟨2, 0⟩, ⟨3, 0⟩, ⟨4, 0⟩, ⟨5, 0⟩, ⟨6, 0⟩,
            ⟨7, 0⟩, ⟨8, 0⟩, ⟨9, 9⟩]) 9) ↔
      2 < zScore (colValues [⟨1, 0⟩, ⟨2, 0⟩, ⟨3, 0⟩, ⟨4, 0⟩, ⟨5, 0⟩, ⟨6, 0⟩,
        ⟨7, 0⟩, ⟨8, 0⟩, ⟨9, 9⟩]) 9) := by
  have hcol : colValues [⟨1, 0⟩, ⟨2, 0⟩, ⟨3, 0⟩, ⟨4, 0⟩, ⟨5, 0⟩, ⟨6, 0⟩, ⟨7, 0⟩,
      ⟨8, 0⟩, ⟨9, 9⟩] = [0, 0, 0, 0, 0, 0, 0, 0, 9] := rfl
  have hσ : 0 < sampleVar (colValues [⟨1, 0⟩, ⟨2, 0⟩, ⟨3, 0⟩, ⟨4, 0⟩, ⟨5, 0⟩,
      ⟨6, 0⟩, ⟨7, 0⟩, ⟨8, 0⟩, ⟨9, 9⟩]) := by
    rw [hcol]
    norm_num [sampleVar, mean]
  exact ⟨by decide, hσ, metric_outlier_flag_iff "70_16-16" "latency_p99" _
    (by decide) hσ ⟨9, 9⟩ (by simp)⟩

/-- C2 counterexample: on the spec example [100, 101, 99, 500] the code does
NOT flag the 500 value — the sample standard deviation is
sqrt(120002/3) ≈ 200.0, so z(500) = 1.5 < 2 and the outlier table stays
empty. -/
theorem rep_500_not_flagged_cex :
    (¬ ∃ e ∈ configMetricOutliers "60_2-2" "throughput_mean"
        [⟨1, 100⟩, ⟨2, 101⟩, ⟨3, 99⟩, ⟨4, 500⟩], e.value = 500) ∧
    zScore (colValues [⟨1, 100⟩, ⟨2, 101⟩, ⟨3, 99⟩, ⟨4, 500⟩]) 500 < 2 := by
  constructor
  · rintro ⟨e, he, -⟩
    rw [configMetricOutliers_nil_of_small "60_2-2" "throughput_mean"
      [⟨1, 100⟩, ⟨2, 101⟩, ⟨3, 99⟩, ⟨4, 500⟩] (by decide) (by decide)] at he
    exact absurd he (List.not_mem_nil e)
  · have hcol : colValues [⟨1, 100⟩, ⟨2, 101⟩, ⟨3, 99⟩, ⟨4, 500⟩] =
        [100, 101, 99, 500] := rfl
    rw [hcol]
    have hσ : 0 < sampleVar [(100 : ℚ), 101, 99, 500] := by
      norm_num [sampleVar, mean]
    rw [zScore_lt_two_iff hσ]
    norm_num [sampleVar, mean]

/-- C2 amended: on repetitions [100, 101, 99, 500] outlier detection flags
no value at all — neither the 500 nor the other three; with the sample
standard deviation and the 2-sigma threshold no group of 4 repetitions can
ever be flagged. -/
theorem rep_100_101_99_500_no_outliers :
    configMetricOutliers "60_2-2" "throughput_mean"
      [⟨1, 100⟩, ⟨2, 101⟩, ⟨3, 99⟩, ⟨4, 500⟩] = [] ∧
    analyzeRepetitionsGroup
      [⟨1, 100, 100⟩, ⟨2, 101, 101⟩, ⟨3, 99, 99⟩, ⟨4, 500, 500⟩] = .analyzed [] := by
  exact ⟨configMetricOutliers_nil_of_small _ _ _ (by decide) (by decide),
    analyzeRepetitionsGroup_nil_of_small _ (by decide) (by decide)⟩

/-- C4 counterexample: on repetitions [100, 100, 100, 1000] the code
computes the sample standard deviation 450 (not approximately 390) and the
z-score of the 1000 value is exactly 3/2 (not approximately 1.73): the 390
and 1.73 of the claim are the population-standard-deviation figures, which
the code does not use. -/
theorem rep_1000_stats_cex :
    sampleStd (colValues [⟨1, 100⟩, ⟨2, 100⟩, ⟨3, 100⟩, ⟨4, 1000⟩]) = 450 ∧
    ¬ ((380 : ℝ) ≤ sampleStd (colValues [⟨1, 100⟩, ⟨2, 100⟩, ⟨3, 100⟩, ⟨4, 1000⟩]) ∧
        sampleStd (colValues [⟨1, 100⟩, ⟨2, 100⟩, ⟨3, 100⟩, ⟨4, 1000⟩]) ≤ 400) ∧
    zScore (colValues [⟨1, 100⟩, ⟨2, 100⟩, ⟨3, 100⟩, ⟨4, 1000⟩]) 1000 = 3 / 2 ∧
    ¬ ((17 / 10 : ℝ) ≤ zScore (colValues [⟨1, 100⟩, ⟨2, 100⟩, ⟨3, 100⟩, ⟨4, 1000⟩]) 1000 ∧
        zScore (colValues [⟨1, 100⟩, ⟨2, 100⟩, ⟨3, 100⟩, ⟨4, 1000⟩]) 1000 ≤ (44 / 25 : ℝ)) := by
  have hcol : colValues [⟨1, 100⟩, ⟨2, 100⟩, ⟨3, 100⟩, ⟨4, 1000⟩] =
      [100, 100, 100, 1000] := rfl
  have hvar : sampleVar [(100 : ℚ), 100, 100, 1000] = 202500 := by
    norm_num [sampleVar, mean]
  have hσ : 0 < sampleVar [(100 : ℚ), 100, 100, 1000] := by rw [hvar]; norm_num
  have hstd : sampleStd [(100 : ℚ), 100, 100, 1000] = 450 := by
    rw [sampleStd, hvar, show (((202500 : ℚ)) : ℝ) = 450 ^ 2 by norm_num,
      Real.sqrt_sq (by norm_num)]
  have hmean : mean [(100 : ℚ), 100, 100, 1000] = 325 := by norm_num [mean]
  have hz : zScore [(100 : ℚ), 100, 100, 1000] 1000 = 3 / 2 := by
    rw [zScore_of_pos hσ, hstd, hmean]
    rw [show |((1000 : ℚ) : ℝ) - ((325 : ℚ) : ℝ)| = 675 by
      rw [show ((1000 : ℚ) : ℝ) - ((325 : ℚ) : ℝ) = 675 by push_cast; ring]
      norm_num]
    norm_num
  rw [hcol]
  refine ⟨hstd, ?_, hz, ?_⟩
  · rw [hstd]; intro h; linarith [h.2]
  · rw [hz]; intro h; linarith [h.1]

/-- C4 amended: on repetitions [100, 100, 100, 1000] the group mean is 325,
the sample standard deviation computed by the code is 450, the z-score of
the 1000 value is 3/2 < 2, and the value is not flagged. -/
theorem rep_1000_not_flagged :
    mean (colValues [⟨1, 100⟩, ⟨2, 100⟩, ⟨3, 100⟩, ⟨4, 1000⟩]) = 325 ∧
    sampleStd (colValues [⟨1, 100⟩, ⟨2, 100⟩, ⟨3, 100⟩, ⟨4, 1000⟩]) = 450 ∧
    zScore (colValues [⟨1, 100⟩, ⟨2, 100⟩, ⟨3, 100⟩, ⟨4, 1000⟩]) 1000 = 3 / 2 ∧
    (3 / 2 : ℝ) < 2 ∧
    configMetricOutliers "60_2-2" "throughput_mean"
      [⟨1, 100⟩, ⟨2, 100⟩, ⟨3, 100⟩, ⟨4, 1000⟩] = [] := by
  have hcol : colValues [⟨1, 100⟩, ⟨2, 100⟩, ⟨3, 100⟩, ⟨4, 1000⟩] =
      [100, 100, 100, 1000] := rfl
  have hvar : sampleVar [(100 : ℚ), 100, 100, 1000] = 202500 := by
    norm_num [sampleVar, mean]
  have hσ : 0 < sampleVar [(100 : ℚ), 100, 100, 1000] := by rw [hvar]; norm_num
  have hstd : sampleStd [(100 : ℚ), 100, 100, 1000] = 450 := by
    rw [sampleStd, hvar, show (((202500 : ℚ)) : ℝ) = 450 ^ 2 by norm_num,
      Real.sqrt_sq (by norm_num)]
  have hmean : mean [(100 : ℚ), 100, 100, 1000] = 325 := by norm_num [mean]
  have hz : zScore [(100 : ℚ), 100, 100, 1000] 1000 = 3 / 2 := by
    rw [zScore_of_pos hσ, hstd, hmean]
    rw [show |((1000 : ℚ) : ℝ) - ((325 : ℚ) : ℝ)| = 675 by
      rw [show ((1000 : ℚ) : ℝ) - ((325 : ℚ) : ℝ) = 675 by push_cast; ring]
      norm_num]
    norm_num
  rw [hcol]
  exact ⟨hmean, hstd, hz, by norm_num,
    configMetricOutliers_nil_of_small _ _ _ (by decide) (by decide)⟩

/-- C5: on a group with at least 2 repetitions whose sample standard
deviation is 0, every z-score is taken to be 0 (the guard `if std > 0`
precedes the division, so no division by a zero sigma is ever evaluated),
the flag test never fires, and the outlier table stays empty. -/
theorem zero_std_no_outliers (cfg metric : String) (rows : List RepRow)
    (h2 : 2 ≤ rows.length) (hσ : sampleVar (colValues rows) = 0) :
    (∀ v : ℚ, zScore (colValues rows) v = 0) ∧
    (∀ v : ℚ, outlierTest (colValues rows) v = false) ∧
    configMetricOutliers cfg metric rows = [] := by
  have hnot : ¬ 0 < sampleVar (colValues rows) := by rw [hσ]; exact lt_irrefl 0
  refine ⟨fun v => zScore_of_nonpos hnot v, fun v => ?_, ?_⟩
  · rw [outlierTest, decide_eq_false_iff_not]
    rintro ⟨hc, -⟩
    exact hnot hc
  · rw [configMetricOutliers, if_neg (by omega), metricOutliers]
    simp only [if_neg hnot]

/-- Witness for C5 at the group [100, 100, 100, 100] of the spec. -/
theorem zero_std_no_outliers_witness :
    sampleVar (colValues [⟨1, 100⟩, ⟨2, 100⟩, ⟨3, 100⟩, ⟨4, 100⟩]) = 0 ∧
    zScore (colValues [⟨1, 100⟩, ⟨2, 100⟩, ⟨3, 100⟩, ⟨4, 100⟩]) 100 = 0 ∧
    configMetricOutliers "60_2-2" "throughput_mean"
      [⟨1, 100⟩, ⟨2, 100⟩, ⟨3, 100⟩, ⟨4, 100⟩] = [] := by
  have hcol : colValues [⟨1, 100⟩, ⟨2, 100⟩, ⟨3, 100⟩, ⟨4, 100⟩] =
      [100, 100, 100, 100] := rfl
  have hσ : sampleVar (colValues [⟨1, 100⟩, ⟨2, 100⟩, ⟨3, 100⟩, ⟨4, 100⟩]) = 0 := by
    rw [hcol]
    norm_num [sampleVar, mean]
  obtain ⟨hz, -, he⟩ := zero_std_no_outliers "60_2-2" "throughput_mean"
    [⟨1, 100⟩, ⟨2, 100⟩, ⟨3, 100⟩, ⟨4, 100⟩] (by decide) hσ
  exact ⟨hσ, hz 100, he⟩

/-- C6: a configuration with fewer than 2 repetitions is excluded from
outlier detection — `analyze_repetitions` reports it explicitly as not
applicable (a report distinct from an analysis that found nothing), no
z-score is produced for it, the outlier table receives no row for it, and
its rows still all appear in the raw `rep_metrics` table. -/
theorem single_repetition_excluded (cfg metric : String) (rows : List RepRow)
    (runs : List RunRep) (h1 : rows.length < 2) (h2 : runs.length < 2) :
    configMetricOutliers cfg metric rows = [] ∧
    analyzeRepetitionsGroup runs = .notApplicable ∧
    (∀ fl, analyzeRepetitionsGroup runs ≠ .analyzed fl) ∧
    ∀ r ∈ runs,
      ({ repetition := r.repetition, throughput := r.throughput,
         latency := r.latency, duration := 3600 } : RepMetricRow) ∈ repMetrics runs := by
  have hna : analyzeRepetitionsGroup runs = .notApplicable := by
    rw [analyzeRepetitionsGroup, if_pos h2]
  refine ⟨by rw [configMetricOutliers, if_pos h1], hna, ?_, ?_⟩
  · intro fl hc
    rw [hna] at hc
    exact GroupOutlierReport.noConfusion hc
  · intro r hr
    exact List.mem_map_of_mem _ hr

/-- Witness for C6 at a concrete single-repetition configuration. -/
theorem single_repetition_excluded_witness :
    ([⟨1, 100⟩] : List RepRow).length < 2 ∧
    configMetricOutliers "70_16-16" "throughput_mean" [⟨1, 100⟩] = [] ∧
    analyzeRepetitionsGroup [⟨1, 100, 50⟩] = .notApplicable ∧
    ({ repetition := 1, throughput := 100, latency := 50,
       duration := 3600 } : RepMetricRow) ∈ repMetrics [⟨1, 100, 50⟩] := by
  obtain ⟨ha, hb, -, hd⟩ := single_repetition_excluded "70_16-16" "throughput_mean"
    [⟨1, 100⟩] [⟨1, 100, 50⟩] (by decide) (by decide)
  exact ⟨by decide, ha, hb, hd ⟨1, 100, 50⟩ (List.mem_singleton.mpr rfl)⟩

/-- C3 counterexample: for the throughput and latency columns the
coefficient-of-variation lambda has no zero-mean guard, so on a group with
mean 0 (for example two failed repetitions with throughput 0) the float
division produces NaN/inf — not the number 0. -/
theorem cv_zero_mean_cex :
    mean [0, 0] = 0 ∧ cvUnguarded [0, 0] = none ∧ cvUnguarded [0, 0] ≠ some 0 := by
  have hm : mean [(0 : ℚ), 0] = 0 := by norm_num [mean]
  have hcv : cvUnguarded [(0 : ℚ), 0] = none := by rw [cvUnguarded, if_pos hm]
  exact ⟨hm, hcv, by rw [hcv]; exact fun hc => Option.noConfusion hc⟩

/-- C3 amended: the reported coefficient of variation equals
std / mean * 100; for the CPU and thread-pool metrics the guarded lambda
reports 0 whenever the mean is not positive (in particular at mean 0,
without NaN and without raising), but for the throughput and latency
metrics the lambda is unguarded and a zero mean yields a non-numeric float
(NaN/inf), not 0. -/
theorem cv_reporting (xs : List ℚ) :
    (mean xs = 0 → cvGuarded xs = 0 ∧ cvUnguarded xs = none) ∧
    (0 < mean xs →
      cvGuarded xs = sampleStd xs / ((mean xs : ℚ) : ℝ) * 100 ∧
      cvUnguarded xs = some (sampleStd xs / ((mean xs : ℚ) : ℝ) * 100)) := by
  constructor
  · intro h0
    constructor
    · rw [cvGuarded, if_neg (by rw [h0]; exact lt_irrefl 0)]
    · rw [cvUnguarded, if_pos h0]
  · intro hpos
    constructor
    · rw [cvGuarded, if_pos hpos]
    · rw [cvUnguarded, if_neg (ne_of_gt hpos)]

/-- Witness for C3 at a zero-mean group and at a positive-mean group. -/
theorem cv_reporting_witness :
    (cvGuarded [0, 0] = 0 ∧ cvUnguarded [0, 0] = none) ∧
    cvGuarded [2, 4] = sampleStd [2, 4] / ((mean [2, 4] : ℚ) : ℝ) * 100 := by
  exact ⟨(cv_reporting [0, 0]).1 (by norm_num [mean]),
    ((cv_reporting [2, 4]).2 (by norm_num [mean])).1⟩

theorem nodup_count_le_one {α : Type} [BEq α] [LawfulBEq α] {l : List α}
    (h : l.Nodup) (a : α) : l.count a ≤ 1 := by
  induction l with
  | nil => simp
  | cons b t ih =>
    rcases List.nodup_cons.mp h with ⟨hb, ht⟩
    by_cases hba : a = b
    · subst hba
      have h0 : t.count a = 0 := List.count_eq_zero.mpr hb
      simp [List.count_cons, h0]
    · have h1 : (a == b) = false := beq_eq_false_iff_ne.mpr hba
      have h2 : (b == a) = false := beq_eq_false_iff_ne.mpr (Ne.symm hba)
      simpa [List.count_cons, h1, h2] using ih ht

/-- C7: every configuration key present in the loaded records appears in
the aggregated groupby output exactly once — no key is dropped, none is
duplicated, and no key appears that was not in the input. -/
theorem config_key_exactly_once (df : List RunRecord) (k : ℕ × ℕ × ℕ) :
    ((analyzeAggregates df).map AggRow.key).count k =
      if k ∈ df.map configKey then 1 else 0 := by
  have hkeys : (analyzeAggregates df).map AggRow.key = (df.map configKey).dedup := by
    rw [analyzeAggregates, List.map_map]
    simp [Function.comp_def]
  rw [hkeys]
  by_cases hk : k ∈ df.map configKey
  · rw [if_pos hk]
    have hnd := List.nodup_dedup (df.map configKey)
    have h1 : (df.map configKey).dedup.count k ≤ 1 := nodup_count_le_one hnd k
    have hpos : 0 < (df.map configKey).dedup.count k :=
      List.count_pos_iff.mpr (List.mem_dedup.mpr hk)
    omega
  · rw [if_neg hk]
    exact List.count_eq_zero.mpr (fun hc => hk (List.mem_dedup.mp hc))

/-- A malformed summary file: `json.load` raises on it. -/
def badSummaryFile : SummaryFile :=
  { filename := "bad_summary.json", parsed := false, throughputMean := none
    throughputMin := none, throughputMax := none, latencyP50 := none
    latencyP90 := none, latencyP99 := none, latencyMean := none, errorRate := none }

/-- A well-formed summary file with all required keys present. -/
def goodSummaryFile : SummaryFile :=
  { filename := "good_summary.json", parsed := true, throughputMean := some 40000
    throughputMin := some 35000, throughputMax := some 45000, latencyP50 := some 120
    latencyP90 := some 250, latencyP99 := some 480, latencyMean := some 150
    errorRate := some 0 }

/-- C8 counterexample: `generate_scaling_insights` reads its first two
summary files with no try/except, so one malformed file aborts the whole
run with an uncaught exception instead of being caught, logged and
skipped. -/
theorem scaling_insights_abort_cex :
    generateScalingInsights [badSummaryFile, goodSummaryFile] =
      .error "JSONDecodeError: bad_summary.json" ∧
    loadRecord goodSummaryFile =
      some { throughputMean := 40000, throughputMin := 35000, throughputMax := 45000
             latencyP50 := 120, latencyP90 := 250, latencyP99 := 480
             latencyMean := 150, errorRate := 0 } := by
  constructor
  · rfl
  · rfl

/-- C8 amended: in `load_summary_data` (and `load_performance_data`) a
per-file failure is caught, an error line naming the file is logged, the
file is skipped and the remaining files all still contribute records, every
file being either loaded or logged; but `generate_scaling_insights` reads
summary files unguarded, where one bad file aborts the run. -/
theorem load_summary_data_skips_bad_files (files : List SummaryFile) :
    (loadSummaryData files).1 = files.filterMap loadRecord ∧
    (∀ f ∈ files, loadRecord f = none →
      ("Error loading " ++ f.filename) ∈ (loadSummaryData files).2) ∧
    (loadSummaryData files).1.length + (loadSummaryData files).2.length =
      files.length := by
  induction files with
  | nil => exact ⟨rfl, fun f hf => absurd hf (List.not_mem_nil f), rfl⟩
  | cons f fs ih =>
    obtain ⟨ih1, ih2, ih3⟩ := ih
    cases hf : loadRecord f with
    | none =>
      refine ⟨?_, ?_, ?_⟩
      · simp only [loadSummaryData, hf, List.filterMap_cons]
        exact ih1
      · intro g hg hgnone
        rcases List.mem_cons.mp hg with rfl | hgs
        · simp only [loadSummaryData, hf]
          exact List.mem_cons_self _ _
        · simp only [loadSummaryData, hf]
          exact List.mem_cons_of_mem _ (ih2 g hgs hgnone)
      · simp only [loadSummaryData, hf, List.length_cons]
        omega
    | some r =>
      refine ⟨?_, ?_, ?_⟩
      · simp only [loadSummaryData, hf, List.filterMap_cons]
        rw [ih1]
      · intro g hg hgnone
        rcases List.mem_cons.mp hg with rfl | hgs
        · rw [hf] at hgnone
          exact absurd hgnone (Option.some_ne_none r)
        · simp only [loadSummaryData, hf]
          exact ih2 g hgs hgnone
      · simp only [loadSummaryData, hf, List.length_cons]
        omega

/-- Witness for C8 at a concrete file set with one good and one bad file:
the bad file is logged, and both files are accounted for. -/
theorem load_summary_data_skips_bad_files_witness :
    loadRecord badSummaryFile = none ∧
    ("Error loading " ++ badSummaryFile.filename) ∈
      (loadSummaryData [goodSummaryFile, badSummaryFile]).2 ∧
    (loadSummaryData [goodSummaryFile, badSummaryFile]).1.length +
      (loadSummaryData [goodSummaryFile, badSummaryFile]).2.length = 2 := by
  obtain ⟨-, h2, h3⟩ := load_summary_data_skips_bad_files [goodSummaryFile, badSummaryFile]
  exact ⟨rfl, h2 badSummaryFile
    (List.mem_cons_of_mem _ (List.mem_singleton.mpr rfl)) rfl, h3⟩

/-- C10: with no telemetry samples, `parse_cpu_metrics` and
`parse_queue_metrics` return every field as 0, giving exactly the same
output record as a run whose samples all measured zero utilization — the
two situations are indistinguishable downstream. -/
theorem missing_telemetry_zero_record :
    parseCpuMetrics [] =
      { cpu_avg := 0, cpu_peak := 0, cpu_p95 := 0, load_avg_1m := 0
        process_cpu_avg := 0 } ∧
    parseQueueMetrics [] =
      { total_queue := 0, total_active := 0, total_rejected := 0, max_queue := 0
        max_rejected := 0, write_queue := 0, search_queue := 0 } ∧
    parseCpuMetrics [{ cpu_percent := 0, load_1m := 0, process_cpu := 0 }] =
      parseCpuMetrics [] ∧
    parseQueueMetrics
        [{ pool := "write", queue := 0, active := 0, rejected := 0, threads := 4
           largest := 4 }] = parseQueueMetrics [] ∧
    ([{ cpu_percent := 0, load_1m := 0, process_cpu := 0 }] : List CpuSample) ≠ [] := by
  have hcpu0 : parseCpuMetrics [] =
      ({ cpu_avg := 0, cpu_peak := 0, cpu_p95 := 0, load_avg_1m := 0
         process_cpu_avg := 0 } : CpuMetrics) := rfl
  have hq0 : parseQueueMetrics [] =
      ({ total_queue := 0, total_active := 0, total_rejected := 0, max_queue := 0
         max_rejected := 0, write_queue := 0, search_queue := 0 } : QueueMetrics) := rfl
  have hcpu : parseCpuMetrics [{ cpu_percent := 0, load_1m := 0, process_cpu := 0 }] =
      ({ cpu_avg := 0, cpu_peak := 0, cpu_p95 := 0, load_avg_1m := 0
         process_cpu_avg := 0 } : CpuMetrics) := by
    rw [parseCpuMetrics]
    norm_num [mean, colMax, quantile, sortAsc, insertSorted]
  have hq : parseQueueMetrics
      [{ pool := "write", queue := 0, active := 0, rejected := 0, threads := 4
         largest := 4 }] =
      ({ total_queue := 0, total_active := 0, total_rejected := 0, max_queue := 0
         max_rejected := 0, write_queue := 0, search_queue := 0 } : QueueMetrics) := by
    rw [parseQueueMetrics]
    have hws : (("write" : String) == "search") = false := by decide
    norm_num [colMax, List.filter_cons, hws]
  exact ⟨hcpu0, hq0, by rw [hcpu, hcpu0], by rw [hq, hq0], by simp⟩

end AxionAnalysis
